import Mathlib

/-!
Verification of the S3 filesystem adapter (s3_file_system.cc, retrying_utils.cc,
retrying_file_system.h) via a shallow embedding.  Keys are byte strings modelled
as lists of characters, object contents as lists of bytes (natural numbers),
and the object store as an association list from keys to objects.  The retry
envelope's loop is embedded with the remaining retry budget made explicit
(remaining = kMaxRetries - retries), which is exactly the loop of
RetryingUtils::CallWithRetries.
-/

namespace S3FS

/-- The error codes of tensorflow/core/lib/core/error_codes (error::Code). -/
inductive ErrorCode where
  | OK
  | CANCELLED
  | UNKNOWN
  | INVALID_ARGUMENT
  | DEADLINE_EXCEEDED
  | NOT_FOUND
  | ALREADY_EXISTS
  | PERMISSION_DENIED
  | UNAUTHENTICATED
  | RESOURCE_EXHAUSTED
  | FAILED_PRECONDITION
  | ABORTED
  | OUT_OF_RANGE
  | UNIMPLEMENTED
  | INTERNAL
  | UNAVAILABLE
  | DATA_LOSS
  deriving DecidableEq

/-- tensorflow::Status: an error code together with an error message. -/
structure Status where
  code : ErrorCode
  msg : String
  deriving DecidableEq

/-- Status::OK(). -/
def okStatus : Status := ⟨ErrorCode.OK, ""⟩

/-- The error-type names used by tensorflow::Status::ToString(). -/
def codeName (c : ErrorCode) : String :=
  match c with
  | ErrorCode.OK => "OK"
  | ErrorCode.CANCELLED => "Cancelled"
  | ErrorCode.UNKNOWN => "Unknown"
  | ErrorCode.INVALID_ARGUMENT => "Invalid argument"
  | ErrorCode.DEADLINE_EXCEEDED => "Deadline exceeded"
  | ErrorCode.NOT_FOUND => "Not found"
  | ErrorCode.ALREADY_EXISTS => "Already exists"
  | ErrorCode.PERMISSION_DENIED => "Permission denied"
  | ErrorCode.UNAUTHENTICATED => "Unauthenticated"
  | ErrorCode.RESOURCE_EXHAUSTED => "Resource exhausted"
  | ErrorCode.FAILED_PRECONDITION => "Failed precondition"
  | ErrorCode.ABORTED => "Aborted"
  | ErrorCode.OUT_OF_RANGE => "Out of range"
  | ErrorCode.UNIMPLEMENTED => "Unimplemented"
  | ErrorCode.INTERNAL => "Internal"
  | ErrorCode.UNAVAILABLE => "Unavailable"
  | ErrorCode.DATA_LOSS => "Data loss"

/-- tensorflow::Status::ToString(). -/
def statusToString (s : Status) : String :=
  if s.code = ErrorCode.OK then "OK" else codeName s.code ++ ": " ++ s.msg

/-- retrying_utils.cc: kMaxRetries = 10. -/
def kMaxRetries : Nat := 10

/-- retrying_utils.cc: kMaximumBackoffMicroseconds = 32000000 (32 seconds). -/
def kMaximumBackoffMicroseconds : Nat := 32000000

/-- retrying_utils.cc IsRetriable: membership of the code in the retriable set. -/
def isRetriable (retriable_errors : List ErrorCode) (code : ErrorCode) : Bool :=
  retriable_errors.contains code

/-- The retriable set the S3 adapter passes to the retry envelope
(RetryingS3FileSystem in s3_file_system.h). -/
def s3RetriableErrors : List ErrorCode :=
  [ErrorCode.UNAVAILABLE, ErrorCode.DEADLINE_EXCEEDED, ErrorCode.UNKNOWN,
   ErrorCode.FAILED_PRECONDITION, ErrorCode.INTERNAL]

/-- The Aborted status built by CallWithRetries after all retries fail,
with the last attempt's status embedded:
StrCat("All ", kMaxRetries, " retry attempts failed. The last failure: ",
status.ToString()). -/
def abortedStatus (last : Status) : Status :=
  ⟨ErrorCode.ABORTED,
   "All 10 retry attempts failed. The last failure: " ++ statusToString last⟩

/-- The loop of RetryingUtils::CallWithRetries.  `f idx` is the status returned
by the idx-th invocation of the wrapped call (0-indexed), and `remaining` is
the number of retries still allowed, i.e. kMaxRetries - retries; the source's
test `retries >= kMaxRetries` is `remaining = 0` here.  The backoff sleep has
no effect on the returned status; its duration is modelled separately by
`retryDelayMicros`. -/
def callLoop (f : Nat → Status) (retriable_errors : List ErrorCode) :
    Nat → Nat → Status
  | 0, idx =>
    let s := f idx
    if isRetriable retriable_errors s.code = false then s
    else abortedStatus s
  | remaining + 1, idx =>
    let s := f idx
    if isRetriable retriable_errors s.code = false then s
    else callLoop f retriable_errors remaining (idx + 1)

/-- RetryingUtils::CallWithRetries. -/
def callWithRetries (f : Nat → Status) (retriable_errors : List ErrorCode) :
    Status :=
  callLoop f retriable_errors kMaxRetries 0

/-- RetryingUtils::DeleteWithRetries: CallWithRetries of a wrapper that
rewrites NOT_FOUND to OK once `is_retried` is set; `is_retried` is true
exactly on the calls after the first one (index at least 1). -/
def deleteWithRetries (f : Nat → Status) (retriable_errors : List ErrorCode) :
    Status :=
  callWithRetries
    (fun idx =>
      let s := f idx
      if 0 < idx ∧ s.code = ErrorCode.NOT_FOUND then okStatus else s)
    retriable_errors

/-- The backoff computation of CallWithRetries (retrying_utils.cc lines 64-70):
delay_micros = 0; if initial_delay_microseconds > 0 then
delay_micros = min(initial_delay_microseconds << retries,
kMaximumBackoffMicroseconds) + New64() % 1000000.
`random` is the raw output of random::New64(). -/
def retryDelayMicros (initial_delay_microseconds : Nat) (retries : Nat)
    (random : Nat) : Nat :=
  if 0 < initial_delay_microseconds then
    min (initial_delay_microseconds <<< retries) kMaximumBackoffMicroseconds
      + random % 1000000
  else 0

/-- An object key within a bucket (the part after "s3://bucket/"). -/
abbrev Key := List Char

/-- An object stored in S3: its content bytes and its LastModified timestamp
in milliseconds (GetLastModified().Millis()). -/
structure S3Object where
  data : List Nat
  lastModifiedMillis : Nat
  deriving DecidableEq

/-- The objects of one bucket: an association list from keys to objects.
Claims quantified over (bucket, key) are formalised over the key alone, since
distinct buckets are independent stores. -/
abbrev ObjectStore := List (Key × S3Object)

/-- HeadObject / GetObject key lookup against the store. -/
def storeFind (store : ObjectStore) (key : Key) : Option S3Object :=
  (store.find? (fun kv => kv.1 == key)).map (fun kv => kv.2)

/-- A PutObject / completed upload at `key`: replaces any object at that key.
The fresh object is listed after the surviving ones. -/
def storePut (store : ObjectStore) (key : Key) (obj : S3Object) : ObjectStore :=
  store.filter (fun kv => !(kv.1 == key)) ++ [(key, obj)]

/-- tensorflow::FileStatistics.  mtime_nsec is LastModified millis * 10^6. -/
structure FileStatistics where
  length : Nat
  is_directory : Bool
  mtime_nsec : Nat
  deriving DecidableEq

/-- The outcome of one GetObject call as seen by S3RandomAccessFile::Read:
either the response body, or an error with its HTTP response code
(416 = REQUESTED_RANGE_NOT_SATISFIABLE) and message. -/
inductive GetOutcome where
  | success (content : List Nat)
  | failure (httpCode : Nat) (msg : String)
  deriving DecidableEq

/-- The S3 server answering the ranged GET "bytes=offset-(offset+n-1)" issued
by S3RandomAccessFile::Read: 416 when the first byte position is not below the
object length (in particular for every ranged GET against a zero-length
object), otherwise the window of at most n bytes starting at offset. -/
def s3RangeGet (store : ObjectStore) (key : Key) (offset n : Nat) : GetOutcome :=
  match storeFind store key with
  | none => GetOutcome.failure 404 "NoSuchKey"
  | some obj =>
    if obj.data.length ≤ offset then
      GetOutcome.failure 416 "Requested Range Not Satisfiable"
    else GetOutcome.success ((obj.data.drop offset).take n)

/-- The client-side handling in S3RandomAccessFile::Read: on failure, response
code 416 gives OUT_OF_RANGE with 0 bytes read, any other failure gives UNKNOWN;
on success n is overwritten with the content length and that many bytes are
returned. -/
def readOutcome (o : GetOutcome) : Status × List Nat :=
  match o with
  | GetOutcome.success content => (okStatus, content)
  | GetOutcome.failure c msg =>
    if c = 416 then (⟨ErrorCode.OUT_OF_RANGE, "Read less bytes than requested"⟩, [])
    else (⟨ErrorCode.UNKNOWN, msg⟩, [])

/-- S3RandomAccessFile::Read(offset, n) against the store. -/
def s3FileRead (store : ObjectStore) (key : Key) (offset n : Nat) :
    Status × List Nat :=
  readOutcome (s3RangeGet store key offset n)

/-- S3FileSystem::Stat.  `bucketOk` is the HeadBucket outcome used when the key
is empty.  For a non-empty key: HeadObject first (a hit records length,
is_directory = false, mtime = LastModified * 10^6), then a ListObjects probe
with the key made '/'-terminated and max-keys 1, whose hit overrides the
statistics with (0, true, first object's LastModified * 10^6); if neither hit,
NOT_FOUND. -/
def statFS (bucketOk : Bool) (store : ObjectStore) (key : Key) :
    Except Status FileStatistics :=
  if key = [] then
    if bucketOk then Except.ok ⟨0, true, 0⟩
    else Except.error ⟨ErrorCode.UNKNOWN, "HeadBucket failed"⟩
  else
    let headStats :=
      match storeFind store key with
      | some obj =>
        (FileStatistics.mk obj.data.length false (obj.lastModifiedMillis * 1000000),
         true)
      | none => (FileStatistics.mk 0 false 0, false)
    let pre := if key.getLast? = some '/' then key else key ++ ['/']
    let listing := (store.filter (fun kv => pre.isPrefixOf kv.1)).take 1
    let finalStats :=
      match listing with
      | kv :: _ =>
        (FileStatistics.mk 0 true (kv.2.lastModifiedMillis * 1000000), true)
      | [] => headStats
    if finalStats.2 then Except.ok finalStats.1
    else Except.error ⟨ErrorCode.NOT_FOUND, "Object does not exist"⟩

/-- S3FileSystem::GetFileSize: Stat and project the length. -/
def getFileSize (bucketOk : Bool) (store : ObjectStore) (key : Key) :
    Except Status Nat :=
  (statFS bucketOk store key).map (fun stats => stats.length)

/-- S3FileSystem::NewReadOnlyMemoryRegionFromFile: GetFileSize, then a single
Read(0, size); errors of either step propagate, otherwise the bytes read form
the region. -/
def newReadOnlyMemoryRegionFromFile (bucketOk : Bool) (store : ObjectStore)
    (key : Key) : Except Status (List Nat) :=
  match statFS bucketOk store key with
  | Except.error e => Except.error e
  | Except.ok stats =>
    let r := s3FileRead store key 0 stats.length
    if r.1.code = ErrorCode.OK then Except.ok r.2 else Except.error r.1

/-- The state of one S3WritableFile: its target key, the bytes written to the
local spill file (the write cursor sits at the end: Sync saves and restores
it), the sync_needed_ flag, and whether outfile_ is still alive (Close resets
it). -/
structure S3WritableFileState where
  key : Key
  spill : List Nat
  sync_needed : Bool
  outfileOpen : Bool
  deriving DecidableEq

/-- A writable file together with the object store it uploads into and a count
of UploadFile submissions (observing which operations upload). -/
structure WFState where
  file : S3WritableFileState
  store : ObjectStore
  uploads : Nat
  deriving DecidableEq

/-- S3FileSystem::NewWritableFile: a fresh S3WritableFile over a truncated
spill file; the constructor initialises sync_needed_(true). -/
def mkWritableState (key : Key) (store : ObjectStore) : WFState :=
  ⟨⟨key, [], true, true⟩, store, 0⟩

/-- FailedPrecondition status of Append/Sync on a closed file. -/
def closedStatus : Status :=
  ⟨ErrorCode.FAILED_PRECONDITION, "The internal temporary file is not writable."⟩

/-- S3WritableFile::Append: FailedPrecondition if outfile_ is gone, otherwise
set sync_needed_ and write the bytes at the cursor (the local write is modelled
as always succeeding). -/
def wfAppend (s : WFState) (data : List Nat) : Status × WFState :=
  if s.file.outfileOpen = false then (closedStatus, s)
  else (okStatus, ⟨⟨s.file.key, s.file.spill ++ data, true, true⟩, s.store, s.uploads⟩)

/-- S3WritableFile::Sync: FailedPrecondition if outfile_ is gone; a no-op OK if
!sync_needed_; otherwise submit the whole spill file to the transfer manager
(counted in `uploads`).  `uploadOk` abstracts whether the transfer (including
its internal kUploadRetries RetryUpload attempts) ends COMPLETED; on completion
the object at the key is replaced with the spill bytes stamped `now`.  The
source never assigns sync_needed_ = false. -/
def wfSync (now : Nat) (uploadOk : Bool) (s : WFState) : Status × WFState :=
  if s.file.outfileOpen = false then (closedStatus, s)
  else if s.file.sync_needed = false then (okStatus, s)
  else
    if uploadOk then
      (okStatus,
       ⟨s.file, storePut s.store s.file.key ⟨s.file.spill, now⟩, s.uploads + 1⟩)
    else
      (⟨ErrorCode.UNKNOWN, "failed parts"⟩, ⟨s.file, s.store, s.uploads + 1⟩)

/-- S3WritableFile::Close: if outfile_ is alive, Sync (propagating its error)
and then release outfile_; idempotent once closed. -/
def wfClose (now : Nat) (uploadOk : Bool) (s : WFState) : Status × WFState :=
  if s.file.outfileOpen = true then
    let r := wfSync now uploadOk s
    if r.1.code = ErrorCode.OK then
      (okStatus,
       ⟨⟨r.2.file.key, r.2.file.spill, r.2.file.sync_needed, false⟩, r.2.store,
        r.2.uploads⟩)
    else r
  else (okStatus, s)

/-- One operation on a writable file (Flush is Sync in the source). -/
inductive WFOp where
  | append (data : List Nat)
  | sync (now : Nat) (uploadOk : Bool)
  | flush (now : Nat) (uploadOk : Bool)
  | close (now : Nat) (uploadOk : Bool)

/-- The state after one writable-file operation. -/
def applyOp (s : WFState) (op : WFOp) : WFState :=
  match op with
  | WFOp.append d => (wfAppend s d).2
  | WFOp.sync n ok => (wfSync n ok s).2
  | WFOp.flush n ok => (wfSync n ok s).2
  | WFOp.close n ok => (wfClose n ok s).2

/-- The state after a sequence of writable-file operations. -/
def runOps (s : WFState) (ops : List WFOp) : WFState :=
  ops.foldl applyOp s

/-- S3FileSystem::DeleteDir after the ListObjects call with max-keys 2,
parameterised by that call's outcome and by the status DeleteFile would return
on the directory marker.  A failed listing falls through to OK with no delete
issued; the Bool records whether DeleteFile was invoked. -/
def deleteDir (listOutcome : Except String (List (Key × S3Object)))
    (deleteFileStatus : Status) (key : Key) : Status × Bool :=
  let pre := if key.getLast? = some '/' then key else key ++ ['/']
  match listOutcome with
  | Except.error _ => (okStatus, false)
  | Except.ok contents =>
    if 1 < contents.length ∨
        (contents.length = 1 ∧ contents.head?.map (fun kv => kv.1) ≠ some pre) then
      (⟨ErrorCode.INTERNAL, "Cannot delete a non-empty directory."⟩, false)
    else if contents.length = 1 ∧ contents.head?.map (fun kv => kv.1) = some pre then
      (deleteFileStatus, true)
    else (okStatus, false)

/-- s3_file_system.cc: kS3MultiPartCopyPartSize = 5 * 1024 * 1024. -/
def kS3MultiPartCopyPartSize : Nat := 5 * 1024 * 1024

/-- S3FileSystem::MultiPartCopy: `int numParts = stats.length /
kS3MultiPartCopyPartSize` — integer (floor) division of the source length. -/
def multiPartCopyNumParts (length : Nat) : Nat :=
  length / kS3MultiPartCopyPartSize

/-- The PartNumber values the MultiPartCopy loop issues:
`for (int partNumber = 0; partNumber < numParts; partNumber++)` passes the
0-based loop index to SetPartNumber. -/
def multiPartCopyPartNumbers (length : Nat) : List Nat :=
  List.range (multiPartCopyNumParts length)

/-- The start offset MultiPartCopy computes for a part:
`uint64 startPos = (partNumber - 1) * kS3MultiPartCopyPartSize`, where
partNumber is a C++ int, so partNumber = 0 wraps modulo 2^64. -/
def multiPartCopyStartPos (partNumber : Nat) : Nat :=
  ((((partNumber : Int) - 1) * (kS3MultiPartCopyPartSize : Int)) % (2 ^ 64 : Int)).toNat

/-- The end offset MultiPartCopy computes for a part:
`uint64 endPos = startPos + kS3MultiPartCopyPartSize - 1`, with no truncation
to the source length. -/
def multiPartCopyEndPos (partNumber : Nat) : Nat :=
  (multiPartCopyStartPos partNumber + kS3MultiPartCopyPartSize - 1) % 2 ^ 64

deriving instance DecidableEq for Except

theorem callLoop_first (f : Nat → Status) (R : List ErrorCode) :
    ∀ (r idx j : Nat), idx ≤ j → j ≤ idx + r →
      (∀ i, idx ≤ i → i < j → isRetriable R (f i).code = true) →
      isRetriable R (f j).code = false →
      callLoop f R r idx = f j := by
  intro r
  induction r with
  | zero =>
    intro idx j h1 h2 _ h4
    have hj : j = idx := by omega
    subst hj
    simp [callLoop, h4]
  | succ m ih =>
    intro idx j h1 h2 h3 h4
    by_cases hj : j = idx
    · subst hj
      simp [callLoop, h4]
    · have hidx : idx < j := by omega
      have hr : isRetriable R (f idx).code = true := h3 idx le_rfl hidx
      simp only [callLoop, hr]
      rw [if_neg (by simp [hr])]
      exact ih (idx + 1) j (by omega) (by omega)
        (fun i hi1 hi2 => h3 i (by omega) hi2) h4

theorem callLoop_aborted (f : Nat → Status) (R : List ErrorCode) :
    ∀ (r idx : Nat),
      (∀ i, idx ≤ i → i ≤ idx + r → isRetriable R (f i).code = true) →
      callLoop f R r idx = abortedStatus (f (idx + r)) := by
  intro r
  induction r with
  | zero =>
    intro idx h
    have h0 : isRetriable R (f idx).code = true := h idx le_rfl (by omega)
    simp [callLoop, h0]
  | succ m ih =>
    intro idx h
    have h0 : isRetriable R (f idx).code = true := h idx le_rfl (by omega)
    simp only [callLoop]
    rw [if_neg (by simp [h0])]
    rw [ih (idx + 1) (fun i hi1 hi2 => h i (by omega) (by omega))]
    have : idx + 1 + m = idx + (m + 1) := by omega
    rw [this]



/-- C3: CallWithRetries returns the first result of f whose code is outside the
retriable set when that happens within the first kMaxRetries + 1 attempts (in
particular OK as soon as f succeeds), and when the first kMaxRetries + 1
results are all retriable it returns the Aborted envelope once, with the final
attempt's status embedded in its message. -/
theorem c3_call_with_retries : 
    (∀ (f : Nat → Status) (R : List ErrorCode) (j : Nat), j ≤ kMaxRetries →
        (∀ i, i < j → isRetriable R (f i).code = true) →
        isRetriable R (f j).code = false →
        callWithRetries f R = f j) ∧
    (∀ (f : Nat → Status) (R : List ErrorCode),
        (∀ i, i ≤ kMaxRetries → isRetriable R (f i).code = true) →
        callWithRetries f R = abortedStatus (f kMaxRetries)) := by
  constructor
  · intro f R j hj h1 h2
    unfold callWithRetries
    exact callLoop_first f R kMaxRetries 0 j (Nat.zero_le j) (by omega)
      (fun i _ hi => h1 i hi) h2
  · intro f R h
    unfold callWithRetries
    have h2 := callLoop_aborted f R kMaxRetries 0 (fun i _ hi => h i (by omega))
    simpa using h2

/-- Witness for C3 at concrete call sequences. -/
theorem c3_witness :
    callWithRetries
        (fun i => if i < 2 then ⟨ErrorCode.UNAVAILABLE, "server busy"⟩ else okStatus)
        s3RetriableErrors = okStatus ∧
    callWithRetries (fun _ => ⟨ErrorCode.UNAVAILABLE, "server busy"⟩)
        s3RetriableErrors
      = abortedStatus ⟨ErrorCode.UNAVAILABLE, "server busy"⟩ :=
  ⟨c3_call_with_retries.1
      (fun i => if i < 2 then ⟨ErrorCode.UNAVAILABLE, "server busy"⟩ else okStatus)
      s3RetriableErrors 2 (by decide) (by decide) (by decide),
   c3_call_with_retries.2 (fun _ => ⟨ErrorCode.UNAVAILABLE, "server busy"⟩)
      s3RetriableErrors (by decide)⟩

/-- C5: DeleteWithRetries behaves as CallWithRetries except that a NOT_FOUND
result on an attempt after the first is rewritten to OK: when the attempts
before attempt j (1 ≤ j ≤ kMaxRetries) are retriable (and none of them is a
late NOT_FOUND, which would already have ended the loop) and attempt j returns
NOT_FOUND, the call returns OK. -/
theorem c5_delete_with_retries (f : Nat → Status) (R : List ErrorCode) (j : Nat)
    (hok : isRetriable R ErrorCode.OK = false)
    (hj1 : 1 ≤ j) (hj2 : j ≤ kMaxRetries)
    (hr : ∀ i, i < j →
        isRetriable R (f i).code = true ∧ (i = 0 ∨ (f i).code ≠ ErrorCode.NOT_FOUND))
    (hnf : (f j).code = ErrorCode.NOT_FOUND) :
    deleteWithRetries f R = okStatus := by
  unfold deleteWithRetries callWithRetries
  show callLoop
      (fun idx => if 0 < idx ∧ (f idx).code = ErrorCode.NOT_FOUND then okStatus else f idx)
      R kMaxRetries 0 = okStatus
  have h1 : ∀ i, 0 ≤ i → i < j →
      isRetriable R
        ((fun idx => if 0 < idx ∧ (f idx).code = ErrorCode.NOT_FOUND then okStatus
                     else f idx) i).code = true := by
    intro i _ hi
    rcases hr i hi with ⟨hret, hcase⟩
    have heq : (if 0 < i ∧ (f i).code = ErrorCode.NOT_FOUND then okStatus else f i)
        = f i := by
      rcases hcase with h0 | hne
      · subst h0; simp
      · rw [if_neg]
        rintro ⟨_, hc⟩
        exact hne hc
    simpa [heq] using hret
  have h2 : isRetriable R
      ((fun idx => if 0 < idx ∧ (f idx).code = ErrorCode.NOT_FOUND then okStatus
                   else f idx) j).code = false := by
    show isRetriable R
        (if 0 < j ∧ (f j).code = ErrorCode.NOT_FOUND then okStatus else f j).code
        = false
    rw [if_pos ⟨hj1, hnf⟩]
    exact hok
  rw [callLoop_first _ R kMaxRetries 0 j (Nat.zero_le j) (by omega) h1 h2]
  show (if 0 < j ∧ (f j).code = ErrorCode.NOT_FOUND then okStatus else f j) = okStatus
  rw [if_pos ⟨hj1, hnf⟩]

/-- Witness for C5: Unavailable twice, then NotFound, yields OK. -/
theorem c5_witness :
    deleteWithRetries
        (fun i => if i < 2 then ⟨ErrorCode.UNAVAILABLE, "server busy"⟩
                  else ⟨ErrorCode.NOT_FOUND, "object gone"⟩)
        s3RetriableErrors = okStatus :=
  c5_delete_with_retries
    (fun i => if i < 2 then ⟨ErrorCode.UNAVAILABLE, "server busy"⟩
              else ⟨ErrorCode.NOT_FOUND, "object gone"⟩)
    s3RetriableErrors 2 (by decide) (by decide) (by decide) (by decide) (by decide)

/-- C8: for a positive initial delay, the backoff computed for retry attempt k
lies in [initial << k, initial << k + 10^6) microseconds while the shifted base
is at most kMaximumBackoffMicroseconds, and in [32000000, 32000000 + 10^6)
microseconds once the shifted base reaches the cap: the shift applies to the
base only and the jitter below 10^6 is added after clamping. -/
theorem c8_backoff (initial k random : Nat) (h : 0 < initial) :
    (initial <<< k ≤ kMaximumBackoffMicroseconds →
      initial <<< k ≤ retryDelayMicros initial k random ∧
      retryDelayMicros initial k random < initial <<< k + 1000000) ∧
    (kMaximumBackoffMicroseconds ≤ initial <<< k →
      kMaximumBackoffMicroseconds ≤ retryDelayMicros initial k random ∧
      retryDelayMicros initial k random < kMaximumBackoffMicroseconds + 1000000) := by
  have hmod : random % 1000000 < 1000000 := Nat.mod_lt _ (by norm_num)
  unfold retryDelayMicros
  rw [if_pos h]
  constructor
  · intro hle
    rw [Nat.min_eq_left hle]
    omega
  · intro hge
    rw [Nat.min_eq_right hge]
    omega

/-- Witness for C8 at concrete delays, below and above the cap. -/
theorem c8_witness :
    (1000000 <<< 3 ≤ retryDelayMicros 1000000 3 123456789 ∧
     retryDelayMicros 1000000 3 123456789 < 1000000 <<< 3 + 1000000) ∧
    (kMaximumBackoffMicroseconds ≤ retryDelayMicros 1000000 10 7 ∧
     retryDelayMicros 1000000 10 7 < kMaximumBackoffMicroseconds + 1000000) :=
  ⟨(c8_backoff 1000000 3 123456789 (by decide)).1 (by decide),
   (c8_backoff 1000000 10 7 (by decide)).2 (by decide)⟩



theorem isPrefixOf_append_slash_self (key : Key) :
    (key ++ ['/']).isPrefixOf key = false := by
  induction key with
  | nil => rfl
  | cons c t ih => simp [List.isPrefixOf, ih]

theorem storeFind_storePut (store : ObjectStore) (key : Key) (obj : S3Object) :
    storeFind (storePut store key obj) key = some obj := by
  unfold storeFind storePut
  induction store with
  | nil => simp [List.find?]
  | cons hd tl ih =>
    by_cases h : hd.1 == key
    · simp only [List.filter_cons]
      rw [if_neg (by simp [h])]
      exact ih
    · have hb : (hd.1 == key) = false := by simpa using h
      simp only [List.filter_cons]
      rw [if_pos (by simp [hb])]
      simp only [List.cons_append, List.find?]
      rw [hb]
      exact ih

theorem filter_storePut_nil (store : ObjectStore) (key : Key) (obj : S3Object)
    (h : ∀ kv ∈ store, (key ++ ['/']).isPrefixOf kv.1 = false) :
    (storePut store key obj).filter (fun kv => (key ++ ['/']).isPrefixOf kv.1) = [] := by
  unfold storePut
  rw [List.filter_append]
  have h1 : (store.filter (fun kv => !(kv.1 == key))).filter
      (fun kv => (key ++ ['/']).isPrefixOf kv.1) = [] := by
    rw [List.filter_eq_nil_iff]
    intro kv hkv
    have hmem := (List.mem_filter.mp hkv).1
    simp [h kv hmem]
  have h2 : List.filter (fun kv => (key ++ ['/']).isPrefixOf kv.1) [(key, obj)] = [] := by
    simp [List.filter, isPrefixOf_append_slash_self]
  rw [h1, h2]
  rfl



theorem statFS_storePut (bucketOk : Bool) (store : ObjectStore) (key : Key)
    (obj : S3Object) (hne : key ≠ []) (hsl : key.getLast? ≠ some '/')
    (h : ∀ kv ∈ store, (key ++ ['/']).isPrefixOf kv.1 = false) :
    statFS bucketOk (storePut store key obj) key
      = Except.ok ⟨obj.data.length, false, obj.lastModifiedMillis * 1000000⟩ := by
  unfold statFS
  rw [if_neg hne]
  simp only [storeFind_storePut, if_neg hsl, filter_storePut_nil store key obj h]
  rfl

/-- Reading back the whole object just written, when it is non-empty. -/
theorem readRegion_storePut (bucketOk : Bool) (store : ObjectStore) (key : Key)
    (b : List Nat) (now : Nat) (hne : key ≠ []) (hsl : key.getLast? ≠ some '/')
    (h : ∀ kv ∈ store, (key ++ ['/']).isPrefixOf kv.1 = false) (hb : b ≠ []) :
    newReadOnlyMemoryRegionFromFile bucketOk (storePut store key ⟨b, now⟩) key
      = Except.ok b := by
  unfold newReadOnlyMemoryRegionFromFile
  rw [statFS_storePut bucketOk store key ⟨b, now⟩ hne hsl h]
  simp [s3FileRead, s3RangeGet, storeFind_storePut, readOutcome, okStatus,
    Nat.le_zero, List.length_eq_zero, hb]



/-- C1 (amended): for a key that is non-empty, does not end in '/', and has no
existing objects under the prefix key ++ "/", writing a NON-EMPTY byte sequence
b through open-write, append(b), close (with the upload completing) makes
read-region return exactly b and stat report length |b|. -/
theorem c1_write_roundtrip (store : ObjectStore) (key : Key) (b : List Nat)
    (now : Nat) (hne : key ≠ []) (hsl : key.getLast? ≠ some '/')
    (hstore : ∀ kv ∈ store, (key ++ ['/']).isPrefixOf kv.1 = false)
    (hb : b ≠ []) :
    (wfAppend (mkWritableState key store) b).1 = okStatus ∧
    (wfClose now true (wfAppend (mkWritableState key store) b).2).1 = okStatus ∧
    newReadOnlyMemoryRegionFromFile true
      (wfClose now true (wfAppend (mkWritableState key store) b).2).2.store key
      = Except.ok b ∧
    (statFS true
        (wfClose now true (wfAppend (mkWritableState key store) b).2).2.store
        key).map FileStatistics.length
      = Except.ok b.length := by
  have hpipe : wfClose now true (wfAppend (mkWritableState key store) b).2
      = (okStatus, ⟨⟨key, b, true, false⟩, storePut store key ⟨b, now⟩, 1⟩) := rfl
  refine ⟨rfl, ?_, ?_, ?_⟩
  · rw [hpipe]
  · rw [hpipe]
    exact readRegion_storePut true store key b now hne hsl hstore hb
  · rw [hpipe]
    show (statFS true (storePut store key ⟨b, now⟩) key).map FileStatistics.length
        = Except.ok b.length
    rw [statFS_storePut true store key ⟨b, now⟩ hne hsl hstore]
    rfl

/-- Witness for C1 at a concrete key and byte sequence. -/
theorem c1_witness :
    (wfAppend (mkWritableState ['k'] []) [1, 2, 3]).1 = okStatus ∧
    (wfClose 9 true (wfAppend (mkWritableState ['k'] []) [1, 2, 3]).2).1 = okStatus ∧
    newReadOnlyMemoryRegionFromFile true
      (wfClose 9 true (wfAppend (mkWritableState ['k'] []) [1, 2, 3]).2).2.store ['k']
      = Except.ok [1, 2, 3] ∧
    (statFS true
        (wfClose 9 true (wfAppend (mkWritableState ['k'] []) [1, 2, 3]).2).2.store
        ['k']).map FileStatistics.length
      = Except.ok 3 :=
  c1_write_roundtrip [] ['k'] [1, 2, 3] 9 (by decide) (by decide)
    (by intro kv hkv; simp at hkv) (by decide)

/-- C1 as stated is false at the empty byte sequence: after open-write,
append([]), close on key "d" over an empty store, close succeeds but
read-region returns OUT_OF_RANGE — the ranged GET against the zero-length
object answers 416 — instead of returning the empty byte sequence. -/
theorem c1_counterexample :
    (wfAppend (mkWritableState ['d'] []) []).1 = okStatus ∧
    (wfClose 0 true (wfAppend (mkWritableState ['d'] []) []).2).1 = okStatus ∧
    newReadOnlyMemoryRegionFromFile true
      (wfClose 0 true (wfAppend (mkWritableState ['d'] []) []).2).2.store ['d']
      = Except.error ⟨ErrorCode.OUT_OF_RANGE, "Read less bytes than requested"⟩ ∧
    newReadOnlyMemoryRegionFromFile true
      (wfClose 0 true (wfAppend (mkWritableState ['d'] []) []).2).2.store ['d']
      ≠ Except.ok ([] : List Nat) := by
  refine ⟨by decide, by decide, by decide, by decide⟩



/-- C6: Stat with a non-empty key not ending in '/': whenever the ListObjects
probe on prefix key ++ "/" returns at least one object, the result is
overridden to (length 0, is_directory true, mtime = first object's
LastModified * 10^6) regardless of the HeadObject outcome, so a directory wins
over a file of the same name; and when both the HeadObject lookup and the
probe miss, Stat returns NOT_FOUND. -/
theorem c6_stat_directory_override (bucketOk : Bool) (store : ObjectStore)
    (key : Key) (hne : key ≠ []) (hsl : key.getLast? ≠ some '/') :
    (∀ o rest,
        store.filter (fun kv => (key ++ ['/']).isPrefixOf kv.1) = o :: rest →
        statFS bucketOk store key
          = Except.ok ⟨0, true, o.2.lastModifiedMillis * 1000000⟩) ∧
    (storeFind store key = none →
     store.filter (fun kv => (key ++ ['/']).isPrefixOf kv.1) = [] →
     statFS bucketOk store key
       = Except.error ⟨ErrorCode.NOT_FOUND, "Object does not exist"⟩) := by
  constructor
  · intro o rest hfil
    unfold statFS
    rw [if_neg hne]
    simp only [if_neg hsl, hfil]
    rfl
  · intro hhead hfil
    unfold statFS
    rw [if_neg hne]
    simp only [if_neg hsl, hfil, hhead]
    rfl

/-- Witness for C6: a store holding both a file and a directory marker. -/
theorem c6_witness :
    statFS true [(['a'], ⟨[1, 2], 3⟩), (['a', '/', 'x'], ⟨[], 7⟩)] ['a']
      = Except.ok ⟨0, true, 7000000⟩ ∧
    statFS true [] ['z']
      = Except.error ⟨ErrorCode.NOT_FOUND, "Object does not exist"⟩ :=
  ⟨(c6_stat_directory_override true
        [(['a'], ⟨[1, 2], 3⟩), (['a', '/', 'x'], ⟨[], 7⟩)] ['a']
        (by decide) (by decide)).1
      (['a', '/', 'x'], ⟨[], 7⟩) [] (by decide),
   (c6_stat_directory_override true [] ['z'] (by decide) (by decide)).2
      (by decide) (by decide)⟩

/-- C7: the random-access read returns OUT_OF_RANGE with 0 bytes read when the
ranged GET is answered with HTTP 416, OK with bytes_read equal to the response
content on success, and UNKNOWN on any other GET failure; on a 10-byte object,
read(offset 5, n 100) returns 5 bytes and read(offset 10, n 100) returns
OUT_OF_RANGE with 0 bytes. -/
theorem c7_random_access_read :
    (∀ msg, readOutcome (GetOutcome.failure 416 msg)
        = (⟨ErrorCode.OUT_OF_RANGE, "Read less bytes than requested"⟩, [])) ∧
    (∀ content, readOutcome (GetOutcome.success content) = (okStatus, content)) ∧
    (∀ c msg, c ≠ 416 →
        readOutcome (GetOutcome.failure c msg) = (⟨ErrorCode.UNKNOWN, msg⟩, [])) ∧
    (s3FileRead [(['o'], ⟨List.range 10, 0⟩)] ['o'] 5 100
        = (okStatus, [5, 6, 7, 8, 9]) ∧
     s3FileRead [(['o'], ⟨List.range 10, 0⟩)] ['o'] 10 100
        = (⟨ErrorCode.OUT_OF_RANGE, "Read less bytes than requested"⟩, [])) := by
  refine ⟨fun msg => rfl, fun content => rfl, fun c msg h => ?_, by decide, by decide⟩
  simp [readOutcome, h]

/-- Witness for C7 at a non-416 failure. -/
theorem c7_witness :
    readOutcome (GetOutcome.failure 404 "NoSuchKey")
      = (⟨ErrorCode.UNKNOWN, "NoSuchKey"⟩, []) :=
  c7_random_access_read.2.2.1 404 "NoSuchKey" (by decide)

/-- C9: for every directory key, when the ListObjects request issued by
DeleteDir itself fails, DeleteDir returns OK and never invokes DeleteFile,
silently discarding the listing error. -/
theorem c9_delete_dir_swallows_listing_error (e : String) (d : Status) (key : Key) :
    deleteDir (Except.error e) d key = (okStatus, false) := by
  rfl

/-- C10: a freshly opened writable file has sync_needed true, so Close with no
preceding Append still uploads the empty spill file, creating a zero-length
object at the key (the behavior CreateDir's empty directory marker relies
on). -/
theorem c10_close_uploads_empty_object (key : Key) (store : ObjectStore) (now : Nat) :
    (mkWritableState key store).file.sync_needed = true ∧
    (wfClose now true (mkWritableState key store)).1 = okStatus ∧
    (wfClose now true (mkWritableState key store)).2.uploads = 1 ∧
    storeFind (wfClose now true (mkWritableState key store)).2.store key
      = some ⟨[], now⟩ ∧
    (storeFind (wfClose now true (mkWritableState key store)).2.store key).map
        (fun o => o.data.length) = some 0 := by
  refine ⟨rfl, rfl, rfl, ?_, ?_⟩
  · show storeFind (storePut store key ⟨[], now⟩) key = some ⟨[], now⟩
    exact storeFind_storePut store key ⟨[], now⟩
  · show (storeFind (storePut store key ⟨[], now⟩) key).map (fun o => o.data.length)
        = some 0
    rw [storeFind_storePut store key ⟨[], now⟩]
    rfl

/-- C2: evaluating the MultiPartCopy part computation of the source at an
11 MiB (11534336-byte) source length: the code divides the length by the 5 MiB
part size with floor, giving 2 parts rather than the 3 the claim states; the
0-based loop passes PartNumbers 0 and 1 rather than 1, 2, 3; the first part's
start offset (partNumber - 1) * partSize wraps to 2^64 - 5242880; and the end
offset is never truncated to the source length. -/
theorem c2_multipart_copy_part_computation :
    multiPartCopyNumParts 11534336 = 2 ∧
    multiPartCopyNumParts 11534336 ≠ 3 ∧
    multiPartCopyPartNumbers 11534336 = [0, 1] ∧
    multiPartCopyPartNumbers 11534336 ≠ [1, 2, 3] ∧
    multiPartCopyStartPos 0 = 2 ^ 64 - 5242880 ∧
    multiPartCopyStartPos 0 ≠ 0 ∧
    multiPartCopyStartPos 1 = 0 ∧
    multiPartCopyEndPos 1 = 5242880 - 1 := by
  refine ⟨by decide, by decide, by decide, by decide, by decide, by decide, by decide,
    by decide⟩



theorem wfAppend_sync_needed (s : WFState) (d : List Nat)
    (h : s.file.sync_needed = true) : (wfAppend s d).2.file.sync_needed = true := by
  unfold wfAppend
  by_cases hopen : s.file.outfileOpen = false
  · rw [if_pos hopen]
    exact h
  · rw [if_neg hopen]

theorem wfSync_sync_needed (now : Nat) (uploadOk : Bool) (s : WFState)
    (h : s.file.sync_needed = true) : (wfSync now uploadOk s).2.file.sync_needed = true := by
  unfold wfSync
  by_cases hopen : s.file.outfileOpen = false
  · rw [if_pos hopen]
    exact h
  · rw [if_neg hopen]
    rw [if_neg (by simp [h])]
    by_cases hup : uploadOk
    · rw [if_pos hup]
      exact h
    · rw [if_neg hup]
      exact h

theorem wfClose_sync_needed (now : Nat) (uploadOk : Bool) (s : WFState)
    (h : s.file.sync_needed = true) : (wfClose now uploadOk s).2.file.sync_needed = true := by
  unfold wfClose
  by_cases hopen : s.file.outfileOpen = true
  · rw [if_pos hopen]
    have hs := wfSync_sync_needed now uploadOk s h
    by_cases hok : (wfSync now uploadOk s).1.code = ErrorCode.OK
    · rw [if_pos hok]
      exact hs
    · rw [if_neg hok]
      exact hs
  · rw [if_neg hopen]
    exact h

theorem applyOp_sync_needed (s : WFState) (op : WFOp)
    (h : s.file.sync_needed = true) : (applyOp s op).file.sync_needed = true := by
  cases op with
  | append d => exact wfAppend_sync_needed s d h
  | sync n ok => exact wfSync_sync_needed n ok s h
  | flush n ok => exact wfSync_sync_needed n ok s h
  | close n ok => exact wfClose_sync_needed n ok s h

/-- C4 (amended): sync_needed is set at construction and by every Append and is
never cleared — no successful Sync resets it, so it is true after every
operation sequence on a writable file — while a Sync invoked on an open file
whose sync_needed flag is false would indeed be a no-op returning OK without
uploading. -/
theorem c4_sync_needed_never_cleared :
    (∀ (key : Key) (store : ObjectStore) (ops : List WFOp),
        (runOps (mkWritableState key store) ops).file.sync_needed = true) ∧
    (∀ (now : Nat) (uploadOk : Bool) (s : WFState),
        s.file.outfileOpen = true → s.file.sync_needed = false →
        wfSync now uploadOk s = (okStatus, s)) := by
  constructor
  · intro key store ops
    suffices hgen : ∀ (l : List WFOp) (s : WFState), s.file.sync_needed = true →
        (runOps s l).file.sync_needed = true from
      hgen ops (mkWritableState key store) rfl
    intro l
    induction l with
    | nil => intro s h; exact h
    | cons o t ih =>
      intro s h
      exact ih (applyOp s o) (applyOp_sync_needed s o h)
  · intro now uploadOk s h1 h2
    unfold wfSync
    rw [if_neg (by simp [h1]), if_pos h2]

/-- Witness for C4 at a concrete operation sequence and state. -/
theorem c4_witness :
    (runOps (mkWritableState ['a'] [])
        [WFOp.append [1], WFOp.sync 5 true, WFOp.sync 6 true]).file.sync_needed
      = true ∧
    wfSync 7 true ⟨⟨['a'], [1], false, true⟩, [], 3⟩
      = (okStatus, ⟨⟨['a'], [1], false, true⟩, [], 3⟩) :=
  ⟨c4_sync_needed_never_cleared.1 ['a'] []
      [WFOp.append [1], WFOp.sync 5 true, WFOp.sync 6 true],
   c4_sync_needed_never_cleared.2 7 true ⟨⟨['a'], [1], false, true⟩, [], 3⟩
      rfl rfl⟩

/-- C4 as stated is false: after a successful Sync on a fresh writable file the
sync_needed flag is still true (the claim says every successful Sync clears
it), and a second Sync performs a second upload instead of being a no-op. -/
theorem c4_counterexample :
    (wfSync 0 true (mkWritableState ['a'] [])).1 = okStatus ∧
    (wfSync 0 true (mkWritableState ['a'] [])).2.file.sync_needed = true ∧
    (wfSync 0 true (mkWritableState ['a'] [])).2.file.sync_needed ≠ false ∧
    (wfSync 0 true (wfSync 0 true (mkWritableState ['a'] [])).2).2.uploads = 2 := by
  refine ⟨by decide, by decide, by decide, by decide⟩

end S3FS
